import Mathlib

/-!
Verification development for the GIMini GIMP plugin (the generation-orchestration
pipeline of this repository). The Go source of the pipeline lives in the plugin
main file; the definitions below are a shallow embedding of its functions:
`runPluginLogic`, `createLayerFromBytes`, `getLayerAsPNG`, `getLayerName`,
`createDummyImage`, `saveAPIKey` (as a trace event), together with the small
parts of the Go standard library (`strings.Fields`, `image/color` conversions,
`image/png` as a lossless container) that the pipeline's behaviour depends on.

Machine bytes are modelled as `Nat` values `< 256` produced by explicit `% 256`
where the Go code truncates (`byte(x)`); buffers are `List Nat`; fallible Go
functions returning `(T, error)` become `Except String T` carrying the exact
error-format strings of the source; the external world (genai client creation,
`GenerateContent`, the active GIMP drawable) is an oracle record `World`;
side effects (key persistence, log lines, the remote call, the host pixel read)
are recorded in an event trace, and the host document is a list of layers
threaded through the run.
-/

namespace GIMini

/-! ### Go standard-library fragments used by the pipeline -/

/-- Accumulator for `goFields`: `cur` holds the (reversed) characters of the
word currently being scanned. Structural recursion over the remaining input. -/
def fieldsAux : List Char → List Char → List String
  | cur, [] => if cur.isEmpty then [] else [String.mk cur.reverse]
  | cur, c :: cs =>
    if c.isWhitespace then
      if cur.isEmpty then fieldsAux [] cs
      else String.mk cur.reverse :: fieldsAux [] cs
    else fieldsAux (c :: cur) cs

/-- Go `strings.Fields`: splits a string around maximal runs of whitespace,
returning the non-empty words in order. -/
def goFields (s : String) : List String := fieldsAux [] s.data

/-- Go `color.NRGBA.RGBA()`: converts straight (non-premultiplied) 8-bit RGBA
components to the 16-bit alpha-premultiplied quadruple. Source formula per
channel: `r |= r << 8; r *= a; r /= 0xff`, and `a |= a << 8` for alpha. -/
def colorNRGBA_RGBA (r g b a : Nat) : Nat × Nat × Nat × Nat :=
  ((r ||| (r <<< 8)) * a / 255,
   (g ||| (g <<< 8)) * a / 255,
   (b ||| (b <<< 8)) * a / 255,
   a ||| (a <<< 8))

/-- Go `color.RGBA.RGBA()`: the stored components are already premultiplied;
each 8-bit component is widened to 16 bits by `r |= r << 8`. -/
def colorRGBA_RGBA (r g b a : Nat) : Nat × Nat × Nat × Nat :=
  (r ||| (r <<< 8), g ||| (g <<< 8), b ||| (b <<< 8), a ||| (a <<< 8))

/-- Go `color.NRGBAModel` applied to an 8-bit premultiplied RGBA pixel
(the conversion `image/png` performs when encoding an `image.RGBA`):
widen with `colorRGBA_RGBA`, then un-premultiply to straight 8-bit alpha. -/
def nrgbaModelOfRGBA (r g b a : Nat) : List Nat :=
  let w := colorRGBA_RGBA r g b a
  if w.2.2.2 = 0xffff then
    [(w.1 >>> 8) % 256, (w.2.1 >>> 8) % 256, (w.2.2.1 >>> 8) % 256, 0xff]
  else if w.2.2.2 = 0 then [0, 0, 0, 0]
  else
    [((w.1 * 0xffff / w.2.2.2) >>> 8) % 256,
     ((w.2.1 * 0xffff / w.2.2.2) >>> 8) % 256,
     ((w.2.2.1 * 0xffff / w.2.2.2) >>> 8) % 256,
     (w.2.2.2 >>> 8) % 256]

/-- A decoded in-memory Go image as the pipeline uses it: `rgba` is
`image.RGBA` (8-bit, alpha-premultiplied storage), `nrgba` is `image.NRGBA`
(8-bit, straight alpha). `pix` is the flat row-major byte buffer, 4 bytes per
pixel. -/
inductive GoImage where
  | rgba (width height : Nat) (pix : List Nat)
  | nrgba (width height : Nat) (pix : List Nat)
deriving DecidableEq

def GoImage.width : GoImage → Nat
  | .rgba w _ _ => w
  | .nrgba w _ _ => w

def GoImage.height : GoImage → Nat
  | .rgba _ h _ => h
  | .nrgba _ h _ => h

/-- `img.At(x, y).RGBA()` at linearized pixel index `i = y*width + x`:
the 16-bit premultiplied quadruple Go's `color.Color` interface returns. -/
def GoImage.rgbaAt : GoImage → Nat → Nat × Nat × Nat × Nat
  | .rgba _ _ pix, i =>
      colorRGBA_RGBA (pix.getD (4 * i) 0) (pix.getD (4 * i + 1) 0)
        (pix.getD (4 * i + 2) 0) (pix.getD (4 * i + 3) 0)
  | .nrgba _ _ pix, i =>
      colorNRGBA_RGBA (pix.getD (4 * i) 0) (pix.getD (4 * i + 1) 0)
        (pix.getD (4 * i + 2) 0) (pix.getD (4 * i + 3) 0)

/-- The straight-alpha pixel bytes `image/png` stores for an image: an
`image.NRGBA` buffer is stored as-is; an `image.RGBA` buffer is converted
pixelwise through `color.NRGBAModel` (PNG files hold straight alpha). -/
def pngStoredPix : GoImage → List Nat
  | .nrgba _ _ pix => pix
  | .rgba w h pix =>
      (List.range (w * h)).flatMap (fun i =>
        nrgbaModelOfRGBA (pix.getD (4 * i) 0) (pix.getD (4 * i + 1) 0)
          (pix.getD (4 * i + 2) 0) (pix.getD (4 * i + 3) 0))

/-- Modelled from the spec (§4.1 Codec; the source delegates to Go's
`image/png.Encode`, which is not part of this repository): PNG is a lossless
container for 8-bit RGBA, storing straight (non-premultiplied) alpha. Encoded
bytes are modelled as width, height, then the stored straight-alpha pixel
bytes. -/
def pngEncode (img : GoImage) : List Nat :=
  img.width :: img.height :: pngStoredPix img

/-- Modelled from the spec (§4.1 Codec; the source delegates to Go's
`image.Decode`, not part of this repository): decoding structurally valid
encoded bytes yields an `image.NRGBA` (straight alpha) of the declared size;
anything else is a `DecodeError`. Error strings follow Go's image package. -/
def imageDecode : List Nat → Except String GoImage
  | w :: h :: pix =>
      if pix.length = w * h * 4 then .ok (.nrgba w h pix)
      else .error "unexpected EOF"
  | _ => .error "image: unknown format"

/-! ### Pipeline data model -/

/-- Mode constant `MODE_TEXT_TO_IMAGE` from the source. -/
def MODE_TEXT_TO_IMAGE : Nat := 0

/-- Mode constant `MODE_IMAGE_TO_IMAGE` from the source. -/
def MODE_IMAGE_TO_IMAGE : Nat := 1

/-- The fields of the global `pluginVals` record that `runPluginLogic` reads
(the dialog writes them before the run; they are fixed during the run). -/
structure PluginVals where
  promptText : String
  apiKey : String
  mode : Nat
deriving DecidableEq

/-- A layer of the host GIMP document: name, size, and the flat RGBA byte
buffer written through the shadow region. -/
structure Layer where
  name : String
  width : Nat
  height : Nat
  pixels : List Nat
deriving DecidableEq

/-- The active GIMP drawable as the host reports it: dimensions,
bytes-per-pixel, and the flat pixel buffer `gimp_pixel_rgn_get_rect` reads. -/
structure Drawable where
  width : Nat
  height : Nat
  bpp : Nat
  pixels : List Nat
deriving DecidableEq

/-- A part of a `GenerateContent` request (`genai.Part`): either `genai.Text`
or `genai.ImageData(format, bytes)`. -/
inductive Part where
  | text (s : String)
  | imageData (format : String) (bytes : List Nat)
deriving DecidableEq

/-- The fields of a `GenerateContent` response the pipeline inspects:
`candidates` lists, per candidate, the texts of its content parts. -/
structure GenResponse where
  candidates : List (List String)
deriving DecidableEq

/-- Oracle for the external world of one invocation: the outcome of
`genai.NewClient` (`none` = success), the outcome of the single
`GenerateContent` call the run makes, and the active drawable. -/
structure World where
  clientErr : Option String
  genOutcome : Except String GenResponse
  drawable : Drawable

/-- Observable side effects of a run, in order: `saveKey` is the
`saveAPIKey` call (host parasite persistence), `logMsg` a `log` package line,
`hostRead` the pixel read from the active drawable inside `getLayerAsPNG`,
and `clientCall` the `GenerateContent` invocation with its request parts. -/
inductive Event where
  | saveKey (key : String)
  | logMsg (s : String)
  | hostRead
  | clientCall (parts : List Part)
deriving DecidableEq

/-- Result of one `runPluginLogic` invocation: the Go return value, the event
trace, and the host document's layer list after the run. -/
structure RunResult where
  result : Except String Unit
  events : List Event
  layers : List Layer

/-! ### Pipeline functions from the source -/

/-- `getLayerName` from the source: `strings.Fields` the prompt, keep at most
the first 5 words, and format with `"Gemini Gen: %s..."`. -/
def getLayerName (prompt : String) : String :=
  let words := goFields prompt
  let maxWords := if words.length < 5 then words.length else 5
  let shortPrompt := String.intercalate " " (words.take maxWords)
  "Gemini Gen: " ++ shortPrompt ++ "..."

/-- `createDummyImage` from the source: a 512×512 `image.NewRGBA` (all bytes
zero) encoded as PNG. The source's `png.Encode` error cannot occur on this
valid buffer, so the model is total. -/
def createDummyImage : List Nat :=
  pngEncode (.rgba 512 512 (List.replicate (512 * 512 * 4) 0))

/-- The 3-channel → 4-channel expansion loop inside `getLayerAsPNG` (case
`bpp = 3`): per pixel `i = y*width + x` copy the three RGB source bytes
(`srcOff = y*stride + x*3 = 3*i`) and set the alpha byte to 255. -/
def expandRGBtoRGBA (width height : Nat) (pixels : List Nat) : List Nat :=
  (List.range (width * height)).flatMap (fun i =>
    [pixels.getD (3 * i) 0, pixels.getD (3 * i + 1) 0,
     pixels.getD (3 * i + 2) 0, 255])

/-- `getLayerAsPNG` from the source, after the host pixel read (the read
itself is recorded as an event by the caller): wraps a 4-bpp buffer as
`image.RGBA`, expands a 3-bpp buffer to `image.NRGBA` with opaque alpha,
fails on any other bytes-per-pixel, then PNG-encodes. -/
def getLayerAsPNG (d : Drawable) : Except String (List Nat) :=
  if d.bpp = 4 then
    .ok (pngEncode (.rgba d.width d.height d.pixels))
  else if d.bpp = 3 then
    .ok (pngEncode (.nrgba d.width d.height
      (expandRGBtoRGBA d.width d.height d.pixels)))
  else
    .error ("unsupported bytes-per-pixel: " ++ toString d.bpp)

/-- The success log line `getLayerAsPNG` emits:
`"GIMini: Successfully encoded layer (%dx%d, %d bpp) to PNG."`. -/
def encodeSuccessLog (d : Drawable) : String :=
  "GIMini: Successfully encoded layer (" ++ toString d.width ++ "x" ++
    toString d.height ++ ", " ++ toString d.bpp ++ " bpp) to PNG."

/-- The per-pixel write in `createLayerFromBytes`: take the 16-bit
quadruple from `img.At(x, y).RGBA()` and store `byte(c >> 8)` for each
component into the RGBA output buffer. -/
def writePixelBytes (c : Nat × Nat × Nat × Nat) : List Nat :=
  [(c.1 >>> 8) % 256, (c.2.1 >>> 8) % 256, (c.2.2.1 >>> 8) % 256,
   (c.2.2.2 >>> 8) % 256]

/-- The pixel-preparation loop of `createLayerFromBytes` (lines building
`pixels` with `offset = y*stride + x*bpp`, linearized to `i = y*width + x`). -/
def pixelBytesFromImage (img : GoImage) : List Nat :=
  (List.range (img.width * img.height)).flatMap (fun i =>
    writePixelBytes (img.rgbaAt i))

/-- `createLayerFromBytes` from the source: decode the bytes (failure leaves
the document untouched), then create, fill, and insert the new named layer.
The GIMP insert/flush/merge calls have no checked failure path in the source,
so the successful branch appends exactly one fully-populated layer. -/
def createLayerFromBytes (v : PluginVals) (data : List Nat)
    (doc : List Layer) : Except String Unit × List Layer :=
  match imageDecode data with
  | .error e => (.error ("failed to decode image data from API: " ++ e), doc)
  | .ok img =>
      (.ok (), doc ++ [{ name := getLayerName v.promptText,
                         width := img.width, height := img.height,
                         pixels := pixelBytesFromImage img }])

/-- The `log.Printf("GIMini: Mode=%d, Prompt='%s'", ...)` line. -/
def invocationLog (mode : Nat) (prompt : String) : String :=
  "GIMini: Mode=" ++ toString mode ++ ", Prompt='" ++ prompt ++ "'"

/-- The conditional `log.Printf("GIMini: Gemini Response: '%s'", ...)` emitted
when the response has a first candidate with a first part. -/
def visionRespLog (resp : GenResponse) : List Event :=
  match resp.candidates with
  | (t :: _) :: _ => [.logMsg ("GIMini: Gemini Response: '" ++ t ++ "'")]
  | _ => []

/-- `runPluginLogic` from the source: validation, `saveAPIKey`, client
creation, the mode switch (request construction and the single
`GenerateContent` call), the placeholder `createDummyImage` result, and the
final `createLayerFromBytes`. The returned record carries the Go error
value, the event trace, and the resulting document layer list. -/
def runPluginLogic (v : PluginVals) (w : World) (doc : List Layer) :
    RunResult :=
  if v.promptText = "" then
    ⟨.error "prompt cannot be empty", [], doc⟩
  else if v.apiKey = "" then
    ⟨.error "API key cannot be empty", [], doc⟩
  else
    let ev0 : List Event :=
      [.saveKey v.apiKey, .logMsg (invocationLog v.mode v.promptText)]
    match w.clientErr with
    | some e => ⟨.error ("failed to create genai client: " ++ e), ev0, doc⟩
    | none =>
      if v.mode = MODE_TEXT_TO_IMAGE then
        let parts : List Part :=
          [.text ("A placeholder for an image of: " ++ v.promptText)]
        let ev1 := ev0 ++ [.clientCall parts]
        match w.genOutcome with
        | .error e => ⟨.error ("gemini API call failed: " ++ e), ev1, doc⟩
        | .ok _resp =>
          let ev2 := ev1 ++ [.logMsg "GIMini: API response received (simulated)."]
          let out := createLayerFromBytes v createDummyImage doc
          ⟨out.1, ev2, out.2⟩
      else if v.mode = MODE_IMAGE_TO_IMAGE then
        let ev1 := ev0 ++ [.logMsg "GIMini: Starting Image-to-Image mode.",
          .hostRead]
        match getLayerAsPNG w.drawable with
        | .error e => ⟨.error ("could not read layer data: " ++ e), ev1, doc⟩
        | .ok inputImageBytes =>
          let ev2 := ev1 ++ [.logMsg (encodeSuccessLog w.drawable)]
          let parts : List Part :=
            [.imageData "png" inputImageBytes, .text v.promptText]
          let ev3 := ev2 ++ [.clientCall parts]
          match w.genOutcome with
          | .error e =>
            ⟨.error ("gemini vision API call failed: " ++ e), ev3, doc⟩
          | .ok resp =>
            let ev4 := ev3 ++ [.logMsg "GIMini: Vision API response received."]
              ++ visionRespLog resp
            let out := createLayerFromBytes v createDummyImage doc
            ⟨out.1, ev4, out.2⟩
      else
        ⟨.error "unknown mode selected", ev0, doc⟩

/-- The error surface in `run` (the PDB entry point): a failing
`runPluginLogic` is reported to the host via
`gimp_message(fmt.Sprintf("GIMini Error: %v", err))`. -/
def surfacedMessage (r : RunResult) : Option String :=
  match r.result with
  | .error e => some ("GIMini Error: " ++ e)
  | .ok _ => none

/-- The log lines of an event trace, in order. -/
def logsOf (evs : List Event) : List String :=
  evs.filterMap (fun ev => match ev with
    | .logMsg s => some s
    | _ => none)

/-- The `GenerateContent` requests of an event trace, in order. -/
def clientCalls (evs : List Event) : List (List Part) :=
  evs.filterMap (fun ev => match ev with
    | .clientCall parts => some parts
    | _ => none)

/-- Substring occurrence on character lists: `matchesAt n h` holds when `n`
occurs at the head of `h`. -/
def matchesAt : List Char → List Char → Bool
  | [], _ => true
  | _ :: _, [] => false
  | c :: cs, d :: ds => c == d && matchesAt cs ds

/-- `occursIn needle hay`: `needle` occurs as a contiguous substring of
`hay`. -/
def occursIn : List Char → List Char → Bool
  | needle, [] => matchesAt needle []
  | needle, d :: ds => matchesAt needle (d :: ds) || occursIn needle ds

end GIMini

/-! ### Helper lemmas -/

namespace GIMini

theorem flatMap4_length (f : Nat → List Nat) (hf : ∀ k, (f k).length = 4)
    (n : Nat) : ((List.range n).flatMap f).length = 4 * n := by
  induction n with
  | zero => rfl
  | succ n ih =>
    rw [List.range_succ, List.flatMap_append, List.length_append, ih]
    simp [hf]
    omega

theorem flatMap4_getD (f : Nat → List Nat) (hf : ∀ k, (f k).length = 4) :
    ∀ n i j, i < n → j < 4 →
      ((List.range n).flatMap f).getD (4 * i + j) 0 = (f i).getD j 0 := by
  intro n
  induction n with
  | zero => intro i j hi _; omega
  | succ n ih =>
    intro i j hi hj
    rw [List.range_succ, List.flatMap_append]
    rcases Nat.lt_or_ge i n with h | h
    · rw [List.getD_append]
      · exact ih i j h hj
      · rw [flatMap4_length f hf n]; omega
    · have hin : i = n := by omega
      subst hin
      rw [List.getD_append_right]
      · rw [flatMap4_length f hf i]
        simp only [List.flatMap_cons, List.flatMap_nil, List.append_nil]
        congr 1
        omega
      · rw [flatMap4_length f hf i]; omega

theorem flatMap_range_zero4 (n : Nat) :
    (List.range n).flatMap (fun _ => ([0, 0, 0, 0] : List Nat))
      = List.replicate (4 * n) 0 := by
  induction n with
  | zero => rfl
  | succ n ih =>
    rw [List.range_succ, List.flatMap_append, ih,
      show 4 * (n + 1) = 4 * n + 4 from by omega, List.replicate_add]
    rfl

theorem getD_replicate_zero (n k : Nat) :
    (List.replicate n (0 : Nat)).getD k 0 = 0 := by
  rw [List.getD_eq_getElem?_getD, List.getElem?_replicate]
  split <;> rfl

theorem pngStoredPix_dummy :
    pngStoredPix (.rgba 512 512 (List.replicate (512 * 512 * 4) 0))
      = List.replicate (512 * 512 * 4) 0 := by
  simp only [pngStoredPix]
  have hfun : (fun i => nrgbaModelOfRGBA
      ((List.replicate (512 * 512 * 4) (0 : Nat)).getD (4 * i) 0)
      ((List.replicate (512 * 512 * 4) (0 : Nat)).getD (4 * i + 1) 0)
      ((List.replicate (512 * 512 * 4) (0 : Nat)).getD (4 * i + 2) 0)
      ((List.replicate (512 * 512 * 4) (0 : Nat)).getD (4 * i + 3) 0))
      = fun _ : Nat => ([0, 0, 0, 0] : List Nat) := by
    funext i
    simp only [getD_replicate_zero]
    rfl
  rw [hfun, flatMap_range_zero4]

theorem imageDecode_createDummyImage :
    imageDecode createDummyImage
      = .ok (.nrgba 512 512 (List.replicate (512 * 512 * 4) 0)) := by
  have h1 : createDummyImage = 512 :: 512 :: List.replicate (512 * 512 * 4) 0 := by
    unfold createDummyImage pngEncode
    rw [pngStoredPix_dummy]
    rfl
  rw [h1]
  simp only [imageDecode, List.length_replicate, if_true]

theorem pixelBytesFromImage_dummy :
    pixelBytesFromImage (.nrgba 512 512 (List.replicate (512 * 512 * 4) 0))
      = List.replicate (512 * 512 * 4) 0 := by
  unfold pixelBytesFromImage
  have hfun : (fun i => writePixelBytes
      ((GoImage.nrgba 512 512 (List.replicate (512 * 512 * 4) 0)).rgbaAt i))
      = fun _ : Nat => ([0, 0, 0, 0] : List Nat) := by
    funext i
    simp only [GoImage.rgbaAt, getD_replicate_zero]
    rfl
  rw [hfun]
  simp only [GoImage.width, GoImage.height]
  rw [flatMap_range_zero4]

theorem createLayerFromBytes_decode_ok (v : PluginVals) (data : List Nat)
    (doc : List Layer) (img : GoImage) (h : imageDecode data = .ok img) :
    createLayerFromBytes v data doc
      = (.ok (), doc ++ [{ name := getLayerName v.promptText,
                           width := img.width, height := img.height,
                           pixels := pixelBytesFromImage img }]) := by
  unfold createLayerFromBytes
  rw [h]

theorem createLayerFromBytes_dummy (v : PluginVals) (doc : List Layer) :
    createLayerFromBytes v createDummyImage doc
      = (.ok (), doc ++ [{ name := getLayerName v.promptText,
                           width := 512, height := 512,
                           pixels := List.replicate (512 * 512 * 4) 0 }]) := by
  rw [createLayerFromBytes_decode_ok v createDummyImage doc _
    imageDecode_createDummyImage]
  simp only [GoImage.width, GoImage.height, pixelBytesFromImage_dummy]

theorem createLayerFromBytes_frame (v : PluginVals) (data : List Nat)
    (doc : List Layer) :
    (∀ e, (createLayerFromBytes v data doc).1 = .error e →
      (createLayerFromBytes v data doc).2 = doc)
    ∧ ((createLayerFromBytes v data doc).2 = doc
        ∨ ∃ l, (createLayerFromBytes v data doc).2 = doc ++ [l]) := by
  unfold createLayerFromBytes
  cases h : imageDecode data with
  | error e => exact ⟨fun _ _ => rfl, Or.inl rfl⟩
  | ok img => exact ⟨fun e he => by simp at he, Or.inr ⟨_, rfl⟩⟩

end GIMini

/-! ### Claim theorems -/

namespace GIMini

/-- A sample world used by witnesses: client creation succeeds, the
generation call succeeds with one text candidate, the active drawable is a
1×1 4-bpp layer. -/
def sampleWorld : World := ⟨none, .ok ⟨[["hello"]]⟩, ⟨1, 1, 4, [1, 2, 3, 4]⟩⟩

/-- A sample pre-existing host layer used by witnesses. -/
def sampleLayer : Layer := ⟨"background", 1, 1, [9, 9, 9, 255]⟩

/-- Claim C4: for every 3-channel source buffer read from the host, the
expansion to a 4-channel buffer copies each pixel's three RGB bytes unchanged
(byte `j < 3` of output pixel `i` equals source byte `3*i + j`), sets the
alpha byte of every pixel to 255, and produces a buffer of exactly
`4 * width * height` bytes, so no alpha byte is left undefined. -/
theorem alpha_expansion_law (width height : Nat) (pixels : List Nat)
    (i j : Nat) (hi : i < width * height) (hj : j < 3) :
    (expandRGBtoRGBA width height pixels).getD (4 * i + j) 0
        = pixels.getD (3 * i + j) 0
    ∧ (expandRGBtoRGBA width height pixels).getD (4 * i + 3) 0 = 255
    ∧ (expandRGBtoRGBA width height pixels).length
        = 4 * (width * height) := by
  have hlen : ∀ k : Nat, ([pixels.getD (3 * k) 0, pixels.getD (3 * k + 1) 0,
      pixels.getD (3 * k + 2) 0, 255] : List Nat).length = 4 := fun _ => rfl
  refine ⟨?_, ?_, ?_⟩
  · rw [expandRGBtoRGBA, flatMap4_getD _ hlen _ i j hi (by omega)]
    interval_cases j <;> rfl
  · rw [expandRGBtoRGBA, flatMap4_getD _ hlen _ i 3 hi (by omega)]
    rfl
  · exact flatMap4_length _ hlen _

/-- Witness for C4 at a concrete 1×1 RGB buffer `[10, 20, 30]`. -/
theorem alpha_expansion_law_witness :
    (expandRGBtoRGBA 1 1 [10, 20, 30]).getD 0 0 = [10, 20, 30].getD 0 0
    ∧ (expandRGBtoRGBA 1 1 [10, 20, 30]).getD 3 0 = 255
    ∧ (expandRGBtoRGBA 1 1 [10, 20, 30]).length = 4 * (1 * 1) :=
  alpha_expansion_law 1 1 [10, 20, 30] 0 0 (by decide) (by decide)

/-- Claim C6: a host drawable whose reported bytes-per-pixel is neither 3
nor 4 makes the layer-read/encode step fail with the unsupported-format
error; no encoded image is produced. -/
theorem unsupported_bpp_fails (d : Drawable) (h3 : d.bpp ≠ 3)
    (h4 : d.bpp ≠ 4) :
    getLayerAsPNG d
      = .error ("unsupported bytes-per-pixel: " ++ toString d.bpp) := by
  unfold getLayerAsPNG
  rw [if_neg h4, if_neg h3]

/-- Witness for C6 at a concrete 2-bpp drawable. -/
theorem unsupported_bpp_fails_witness :
    getLayerAsPNG ⟨2, 2, 2, [0, 0, 0, 0, 0, 0, 0, 0]⟩
      = .error "unsupported bytes-per-pixel: 2" :=
  unsupported_bpp_fails ⟨2, 2, 2, [0, 0, 0, 0, 0, 0, 0, 0]⟩
    (by decide) (by decide)

/-- Claim C7: for every prompt the materialized layer name is the fixed
template `"Gemini Gen: %s..."` applied to the join of the first up-to-5
whitespace-delimited words of the prompt (`take 5` returns all words when
there are fewer than 5), never more than 5 words; and on the prompt
`"a red fox jumping over seven lazy dogs quickly"` the name is the template
applied to `"a red fox jumping over"`. -/
theorem layer_naming :
    (∀ prompt : String,
        getLayerName prompt
          = "Gemini Gen: "
              ++ String.intercalate " " ((goFields prompt).take 5) ++ "..."
        ∧ ((goFields prompt).take 5).length ≤ 5)
    ∧ getLayerName "a red fox jumping over seven lazy dogs quickly"
        = "Gemini Gen: a red fox jumping over..." := by
  constructor
  · intro prompt
    constructor
    · show "Gemini Gen: " ++ String.intercalate " "
          ((goFields prompt).take
            (if (goFields prompt).length < 5 then (goFields prompt).length
             else 5)) ++ "..." = _
      by_cases h : (goFields prompt).length < 5
      · rw [if_pos h, List.take_length,
          List.take_of_length_le (by omega : (goFields prompt).length ≤ 5)]
      · rw [if_neg h]
    · rw [List.length_take]
      omega
  · decide

end GIMini

namespace GIMini


/-- Branch shape of `runPluginLogic`: empty prompt. -/
theorem run_shape_prompt_empty (v : PluginVals) (w : World) (doc : List Layer)
    (hp : v.promptText = "") :
    runPluginLogic v w doc = ⟨.error "prompt cannot be empty", [], doc⟩ := by
  unfold runPluginLogic
  rw [if_pos hp]

/-- Branch shape of `runPluginLogic`: empty API key. -/
theorem run_shape_key_empty (v : PluginVals) (w : World) (doc : List Layer)
    (hp : v.promptText ≠ "") (hk : v.apiKey = "") :
    runPluginLogic v w doc = ⟨.error "API key cannot be empty", [], doc⟩ := by
  unfold runPluginLogic
  rw [if_neg hp, if_pos hk]

/-- Branch shape of `runPluginLogic`: `genai.NewClient` fails. -/
theorem run_shape_clientErr (v : PluginVals) (w : World) (doc : List Layer)
    (e : String) (hp : v.promptText ≠ "") (hk : v.apiKey ≠ "")
    (hc : w.clientErr = some e) :
    runPluginLogic v w doc
      = ⟨.error ("failed to create genai client: " ++ e),
         [.saveKey v.apiKey, .logMsg (invocationLog v.mode v.promptText)],
         doc⟩ := by
  unfold runPluginLogic
  rw [if_neg hp, if_neg hk]
  simp only [hc]

/-- Branch shape of `runPluginLogic`: TextToImage, generation call fails. -/
theorem run_shape_t2i_err (v : PluginVals) (w : World) (doc : List Layer)
    (e : String) (hp : v.promptText ≠ "") (hk : v.apiKey ≠ "")
    (hc : w.clientErr = none) (hm : v.mode = MODE_TEXT_TO_IMAGE)
    (hg : w.genOutcome = .error e) :
    runPluginLogic v w doc
      = ⟨.error ("gemini API call failed: " ++ e),
         [.saveKey v.apiKey, .logMsg (invocationLog v.mode v.promptText),
          .clientCall [.text ("A placeholder for an image of: " ++ v.promptText)]],
         doc⟩ := by
  unfold runPluginLogic
  rw [if_neg hp, if_neg hk]
  simp only [hc, hg, hm, if_pos rfl]
  rfl

/-- Branch shape of `runPluginLogic`: TextToImage, generation call succeeds;
the materialized data is `createDummyImage`. -/
theorem run_shape_t2i_ok (v : PluginVals) (w : World) (doc : List Layer)
    (resp : GenResponse) (hp : v.promptText ≠ "") (hk : v.apiKey ≠ "")
    (hc : w.clientErr = none) (hm : v.mode = MODE_TEXT_TO_IMAGE)
    (hg : w.genOutcome = .ok resp) :
    runPluginLogic v w doc
      = ⟨.ok (),
         [.saveKey v.apiKey, .logMsg (invocationLog v.mode v.promptText),
          .clientCall [.text ("A placeholder for an image of: " ++ v.promptText)],
          .logMsg "GIMini: API response received (simulated)."],
         doc ++ [{ name := getLayerName v.promptText, width := 512,
                   height := 512,
                   pixels := List.replicate (512 * 512 * 4) 0 }]⟩ := by
  unfold runPluginLogic
  rw [if_neg hp, if_neg hk]
  simp only [hc, hg, hm, if_pos rfl]
  rw [createLayerFromBytes_dummy]
  rfl

/-- Branch shape of `runPluginLogic`: ImageToImage, layer read/encode
fails. -/
theorem run_shape_i2i_readErr (v : PluginVals) (w : World) (doc : List Layer)
    (e : String) (hp : v.promptText ≠ "") (hk : v.apiKey ≠ "")
    (hc : w.clientErr = none) (hm : v.mode = MODE_IMAGE_TO_IMAGE)
    (hr : getLayerAsPNG w.drawable = .error e) :
    runPluginLogic v w doc
      = ⟨.error ("could not read layer data: " ++ e),
         [.saveKey v.apiKey, .logMsg (invocationLog v.mode v.promptText),
          .logMsg "GIMini: Starting Image-to-Image mode.", .hostRead],
         doc⟩ := by
  unfold runPluginLogic
  rw [if_neg hp, if_neg hk]
  simp only [hc]
  have hm1 : ¬(v.mode = MODE_TEXT_TO_IMAGE) := by rw [hm]; decide
  rw [if_neg hm1, if_pos hm]
  simp only [hr]
  rfl

/-- Branch shape of `runPluginLogic`: ImageToImage, layer encoded, generation
call fails. -/
theorem run_shape_i2i_genErr (v : PluginVals) (w : World) (doc : List Layer)
    (bs : List Nat) (e : String) (hp : v.promptText ≠ "") (hk : v.apiKey ≠ "")
    (hc : w.clientErr = none) (hm : v.mode = MODE_IMAGE_TO_IMAGE)
    (hr : getLayerAsPNG w.drawable = .ok bs) (hg : w.genOutcome = .error e) :
    runPluginLogic v w doc
      = ⟨.error ("gemini vision API call failed: " ++ e),
         [.saveKey v.apiKey, .logMsg (invocationLog v.mode v.promptText),
          .logMsg "GIMini: Starting Image-to-Image mode.", .hostRead,
          .logMsg (encodeSuccessLog w.drawable),
          .clientCall [.imageData "png" bs, .text v.promptText]],
         doc⟩ := by
  unfold runPluginLogic
  rw [if_neg hp, if_neg hk]
  simp only [hc]
  have hm1 : ¬(v.mode = MODE_TEXT_TO_IMAGE) := by rw [hm]; decide
  rw [if_neg hm1, if_pos hm]
  simp only [hr, hg]
  rfl

/-- Branch shape of `runPluginLogic`: ImageToImage, layer encoded, generation
call succeeds; the materialized data is `createDummyImage`. -/
theorem run_shape_i2i_ok (v : PluginVals) (w : World) (doc : List Layer)
    (bs : List Nat) (resp : GenResponse) (hp : v.promptText ≠ "")
    (hk : v.apiKey ≠ "") (hc : w.clientErr = none)
    (hm : v.mode = MODE_IMAGE_TO_IMAGE)
    (hr : getLayerAsPNG w.drawable = .ok bs) (hg : w.genOutcome = .ok resp) :
    runPluginLogic v w doc
      = ⟨.ok (),
         [.saveKey v.apiKey, .logMsg (invocationLog v.mode v.promptText),
          .logMsg "GIMini: Starting Image-to-Image mode.", .hostRead,
          .logMsg (encodeSuccessLog w.drawable),
          .clientCall [.imageData "png" bs, .text v.promptText],
          .logMsg "GIMini: Vision API response received."]
           ++ visionRespLog resp,
         doc ++ [{ name := getLayerName v.promptText, width := 512,
                   height := 512,
                   pixels := List.replicate (512 * 512 * 4) 0 }]⟩ := by
  unfold runPluginLogic
  rw [if_neg hp, if_neg hk]
  simp only [hc]
  have hm1 : ¬(v.mode = MODE_TEXT_TO_IMAGE) := by rw [hm]; decide
  rw [if_neg hm1, if_pos hm]
  simp only [hr, hg]
  rw [createLayerFromBytes_dummy]
  rfl

/-- Branch shape of `runPluginLogic`: unknown mode. -/
theorem run_shape_badMode (v : PluginVals) (w : World) (doc : List Layer)
    (hp : v.promptText ≠ "") (hk : v.apiKey ≠ "") (hc : w.clientErr = none)
    (hm : v.mode ≠ MODE_TEXT_TO_IMAGE) (hm2 : v.mode ≠ MODE_IMAGE_TO_IMAGE) :
    runPluginLogic v w doc
      = ⟨.error "unknown mode selected",
         [.saveKey v.apiKey, .logMsg (invocationLog v.mode v.promptText)],
         doc⟩ := by
  unfold runPluginLogic
  rw [if_neg hp, if_neg hk]
  simp only [hc]
  rw [if_neg hm, if_neg hm2]

/-- Claim C1: for every invocation, if `runPluginLogic` fails (which covers
every failure at validation, host-read, encode, the generation call, and
decode — the stages before materialization), the host document's layer list
after the run equals the layer list before the run; and in every run the
layer list is either unchanged or extended by exactly the one fully-populated
layer appended by the final materialize step, which is the only
host-document-mutating step. -/
theorem no_partial_write (v : PluginVals) (w : World) (doc : List Layer) :
    (∀ e, (runPluginLogic v w doc).result = .error e →
      (runPluginLogic v w doc).layers = doc)
    ∧ ((runPluginLogic v w doc).layers = doc
        ∨ ∃ l, (runPluginLogic v w doc).layers = doc ++ [l]) := by
  by_cases hp : v.promptText = ""
  · rw [run_shape_prompt_empty v w doc hp]
    exact ⟨fun e _ => rfl, Or.inl rfl⟩
  · by_cases hk : v.apiKey = ""
    · rw [run_shape_key_empty v w doc hp hk]
      exact ⟨fun e _ => rfl, Or.inl rfl⟩
    · cases hc : w.clientErr with
      | some e =>
        rw [run_shape_clientErr v w doc e hp hk hc]
        exact ⟨fun e _ => rfl, Or.inl rfl⟩
      | none =>
        by_cases hm : v.mode = MODE_TEXT_TO_IMAGE
        · cases hg : w.genOutcome with
          | error e =>
            rw [run_shape_t2i_err v w doc e hp hk hc hm hg]
            exact ⟨fun e _ => rfl, Or.inl rfl⟩
          | ok resp =>
            rw [run_shape_t2i_ok v w doc resp hp hk hc hm hg]
            exact ⟨fun e h => Except.noConfusion h, Or.inr ⟨_, rfl⟩⟩
        · by_cases hm2 : v.mode = MODE_IMAGE_TO_IMAGE
          · cases hr : getLayerAsPNG w.drawable with
            | error e =>
              rw [run_shape_i2i_readErr v w doc e hp hk hc hm2 hr]
              exact ⟨fun e _ => rfl, Or.inl rfl⟩
            | ok bs =>
              cases hg : w.genOutcome with
              | error e =>
                rw [run_shape_i2i_genErr v w doc bs e hp hk hc hm2 hr hg]
                exact ⟨fun e _ => rfl, Or.inl rfl⟩
              | ok resp =>
                rw [run_shape_i2i_ok v w doc bs resp hp hk hc hm2 hr hg]
                exact ⟨fun e h => Except.noConfusion h, Or.inr ⟨_, rfl⟩⟩
          · rw [run_shape_badMode v w doc hp hk hc hm hm2]
            exact ⟨fun e _ => rfl, Or.inl rfl⟩

/-- Witness for C1: a run that fails validation leaves the one-layer
document unchanged. -/
theorem no_partial_write_witness :
    (runPluginLogic ⟨"", "key", MODE_TEXT_TO_IMAGE⟩ sampleWorld
        [sampleLayer]).layers = [sampleLayer] :=
  (no_partial_write ⟨"", "key", MODE_TEXT_TO_IMAGE⟩ sampleWorld
    [sampleLayer]).1 "prompt cannot be empty" rfl

/-- Claim C3: for every UserInput whose prompt or apiKey is the empty
string, the invocation terminates immediately with a validation failure:
the event trace is empty — so neither the generation client (`clientCall`)
nor the host bridge (`hostRead`, layer write) nor even the key save is
invoked — and the document is unchanged. -/
theorem validation_short_circuit (v : PluginVals) (w : World)
    (doc : List Layer) (h : v.promptText = "" ∨ v.apiKey = "") :
    ((runPluginLogic v w doc).result = .error "prompt cannot be empty"
      ∨ (runPluginLogic v w doc).result = .error "API key cannot be empty")
    ∧ (runPluginLogic v w doc).events = []
    ∧ (runPluginLogic v w doc).layers = doc := by
  unfold runPluginLogic
  by_cases hp : v.promptText = ""
  · rw [if_pos hp]
    exact ⟨Or.inl rfl, rfl, rfl⟩
  · have hk : v.apiKey = "" := h.resolve_left hp
    rw [if_neg hp, if_pos hk]
    exact ⟨Or.inr rfl, rfl, rfl⟩

/-- Witness for C3 at the spec's example `UserInput{prompt:"", apiKey:"X"}`. -/
theorem validation_short_circuit_witness :
    ((runPluginLogic ⟨"", "X", MODE_TEXT_TO_IMAGE⟩ sampleWorld []).result
        = .error "prompt cannot be empty"
      ∨ (runPluginLogic ⟨"", "X", MODE_TEXT_TO_IMAGE⟩ sampleWorld []).result
        = .error "API key cannot be empty")
    ∧ (runPluginLogic ⟨"", "X", MODE_TEXT_TO_IMAGE⟩ sampleWorld []).events = []
    ∧ (runPluginLogic ⟨"", "X", MODE_TEXT_TO_IMAGE⟩ sampleWorld []).layers
        = [] :=
  validation_short_circuit ⟨"", "X", MODE_TEXT_TO_IMAGE⟩ sampleWorld []
    (Or.inl rfl)

/-- Claim C5 (failure evaluation): the per-pixel conversion in
`createLayerFromBytes` does not produce straight (non-premultiplied) RGBA
bytes for translucent pixels. For a decoded 1×1 `image.NRGBA` pixel with
straight components (255, 0, 0, 128) — half-transparent red — the bytes the
code writes into the new host layer are (128, 0, 0, 128): the RGB channels
come out premultiplied by alpha (`img.At().RGBA()` returns premultiplied
16-bit values and the code only right-shifts, with no division by alpha),
not the straight (255, 0, 0, 128) the claim requires. -/
theorem premultiplied_write_divergence :
    pixelBytesFromImage (GoImage.nrgba 1 1 [255, 0, 0, 128]) = [128, 0, 0, 128]
    ∧ [128, 0, 0, 128] ≠ [255, 0, 0, 128] := by
  constructor
  · decide
  · decide

/-- Claim C10: on every invocation that passes validation, the API key is
persisted (the `saveAPIKey` call) as the very first observable effect, hence
before the generation request is dispatched — and this holds for every world
`w`, in particular when client creation, the generation call, the host read,
or the decode later fails, so the key is saved for the next session even on
failing runs. -/
theorem key_saved_before_request (v : PluginVals) (w : World)
    (doc : List Layer) (hp : v.promptText ≠ "") (hk : v.apiKey ≠ "") :
    (runPluginLogic v w doc).events.head? = some (.saveKey v.apiKey) := by
  cases hc : w.clientErr with
  | some e => rw [run_shape_clientErr v w doc e hp hk hc]; rfl
  | none =>
    by_cases hm : v.mode = MODE_TEXT_TO_IMAGE
    · cases hg : w.genOutcome with
      | error e => rw [run_shape_t2i_err v w doc e hp hk hc hm hg]; rfl
      | ok resp => rw [run_shape_t2i_ok v w doc resp hp hk hc hm hg]; rfl
    · by_cases hm2 : v.mode = MODE_IMAGE_TO_IMAGE
      · cases hr : getLayerAsPNG w.drawable with
        | error e => rw [run_shape_i2i_readErr v w doc e hp hk hc hm2 hr]; rfl
        | ok bs =>
          cases hg : w.genOutcome with
          | error e =>
            rw [run_shape_i2i_genErr v w doc bs e hp hk hc hm2 hr hg]; rfl
          | ok resp =>
            rw [run_shape_i2i_ok v w doc bs resp hp hk hc hm2 hr hg]; rfl
      · rw [run_shape_badMode v w doc hp hk hc hm hm2]; rfl

/-- Witness for C10: the key is saved first even when the generation call
fails. -/
theorem key_saved_before_request_witness :
    (runPluginLogic ⟨"p", "k", MODE_TEXT_TO_IMAGE⟩
        ⟨none, .error "boom", ⟨1, 1, 4, [1, 2, 3, 4]⟩⟩ []).events.head?
      = some (.saveKey "k") :=
  key_saved_before_request ⟨"p", "k", MODE_TEXT_TO_IMAGE⟩
    ⟨none, .error "boom", ⟨1, 1, 4, [1, 2, 3, 4]⟩⟩ []
    (by decide) (by decide)

end GIMini

namespace GIMini

/-- Claim C2 (failure evaluation): the pipeline does not materialize the
image returned by the generation service. In both modes, on a concrete
invocation where the generation call succeeds (the service answers with a
text candidate — the response is available to the code), the layer written
into the host document is the fixed 512×512 all-zero placeholder produced by
`createDummyImage`, a hardcoded substitute that is independent of the
response. -/
theorem placeholder_materialized_not_response :
    (runPluginLogic ⟨"a cat", "k", MODE_TEXT_TO_IMAGE⟩ sampleWorld []).layers
      = [{ name := "Gemini Gen: a cat...", width := 512, height := 512,
           pixels := List.replicate (512 * 512 * 4) 0 }]
    ∧ (runPluginLogic ⟨"a cat", "k", MODE_IMAGE_TO_IMAGE⟩ sampleWorld
        []).layers
      = [{ name := "Gemini Gen: a cat...", width := 512, height := 512,
           pixels := List.replicate (512 * 512 * 4) 0 }] := by
  have hname : getLayerName "a cat" = "Gemini Gen: a cat..." := by decide
  constructor
  · rw [run_shape_t2i_ok ⟨"a cat", "k", MODE_TEXT_TO_IMAGE⟩ sampleWorld []
      ⟨[["hello"]]⟩ (by decide) (by decide) rfl rfl rfl]
    dsimp only [List.nil_append]
    rw [hname]
  · rw [run_shape_i2i_ok ⟨"a cat", "k", MODE_IMAGE_TO_IMAGE⟩ sampleWorld []
      (pngEncode (.rgba 1 1 [1, 2, 3, 4])) ⟨[["hello"]]⟩
      (by decide) (by decide) rfl rfl rfl rfl]
    dsimp only [List.nil_append]
    rw [hname]

/-- `clientCalls` distributes over trace concatenation. -/
theorem clientCalls_append (l1 l2 : List Event) :
    clientCalls (l1 ++ l2) = clientCalls l1 ++ clientCalls l2 := by
  unfold clientCalls
  exact List.filterMap_append l1 l2 _

/-- `visionRespLog` emits only log events, so it contributes no client
calls. -/
theorem clientCalls_visionRespLog (resp : GenResponse) :
    clientCalls (visionRespLog resp) = [] := by
  obtain ⟨cands⟩ := resp
  match cands with
  | [] => rfl
  | [] :: _ => rfl
  | (_ :: _) :: _ => rfl

/-- Claim C8: the request sent to the generation service is shaped by the
mode. In TextToImage mode the single request carries exactly one text part
holding the prompt (inside the fixed wrapper string the source uses) and no
reference-image part, and no host layer read occurs; in ImageToImage mode
the single request carries the encoded bytes of the current layer together
with the prompt text. This covers both a failing and a succeeding
generation call, since the request is formed before the outcome is known. -/
theorem request_shape_by_mode (v : PluginVals) (w : World) (doc : List Layer)
    (hp : v.promptText ≠ "") (hk : v.apiKey ≠ "") (hc : w.clientErr = none) :
    (v.mode = MODE_TEXT_TO_IMAGE →
      clientCalls (runPluginLogic v w doc).events
          = [[Part.text ("A placeholder for an image of: " ++ v.promptText)]]
        ∧ Event.hostRead ∉ (runPluginLogic v w doc).events)
    ∧ (∀ bs, v.mode = MODE_IMAGE_TO_IMAGE →
        getLayerAsPNG w.drawable = .ok bs →
        clientCalls (runPluginLogic v w doc).events
          = [[Part.imageData "png" bs, Part.text v.promptText]]) := by
  constructor
  · intro hm
    cases hg : w.genOutcome with
    | error e =>
      rw [run_shape_t2i_err v w doc e hp hk hc hm hg]
      refine ⟨rfl, fun hmem => ?_⟩
      simp only [List.mem_cons, List.not_mem_nil, or_false] at hmem
      rcases hmem with h | h | h <;> exact Event.noConfusion h
    | ok resp =>
      rw [run_shape_t2i_ok v w doc resp hp hk hc hm hg]
      refine ⟨rfl, fun hmem => ?_⟩
      simp only [List.mem_cons, List.not_mem_nil, or_false] at hmem
      rcases hmem with h | h | h | h <;> exact Event.noConfusion h
  · intro bs hm hr
    cases hg : w.genOutcome with
    | error e =>
      rw [run_shape_i2i_genErr v w doc bs e hp hk hc hm hr hg]
      rfl
    | ok resp =>
      rw [run_shape_i2i_ok v w doc bs resp hp hk hc hm hr hg]
      dsimp only
      rw [clientCalls_append, clientCalls_visionRespLog]
      rfl

/-- Witness for C8 at a concrete TextToImage invocation. -/
theorem request_shape_by_mode_witness :
    clientCalls (runPluginLogic ⟨"hi", "k", MODE_TEXT_TO_IMAGE⟩ sampleWorld
        []).events
      = [[Part.text "A placeholder for an image of: hi"]]
    ∧ Event.hostRead ∉ (runPluginLogic ⟨"hi", "k", MODE_TEXT_TO_IMAGE⟩
        sampleWorld []).events :=
  (request_shape_by_mode ⟨"hi", "k", MODE_TEXT_TO_IMAGE⟩ sampleWorld []
    (by decide) (by decide) rfl).1 rfl

/-- Counterexample to claim C9 as stated: an invocation on which the apiKey
string does occur as a substring of a log line written by the pipeline. With
`UserInput{prompt:"k", apiKey:"k"}` the line
`log.Printf("GIMini: Mode=%d, Prompt='%s'", ...)` is emitted and contains
the apiKey value `"k"` as a substring (the code sanitizes nothing; any
logged data that happens to contain the key exposes it). -/
theorem apiKey_substring_of_log :
    Event.logMsg "GIMini: Mode=0, Prompt='k'"
        ∈ (runPluginLogic ⟨"k", "k", MODE_TEXT_TO_IMAGE⟩ sampleWorld
            []).events
    ∧ occursIn "k".data "GIMini: Mode=0, Prompt='k'".data = true := by
  constructor
  · decide
  · decide

/-- Claim C9 as amended: the pipeline itself never interpolates the apiKey
into any log line or into the error message surfaced to the host — two
invocations that differ only in their (equally empty or equally non-empty)
apiKey produce identical log output, an identical `runPluginLogic` result,
and an identical surfaced host message. (The apiKey can still appear in
output when it occurs inside other logged data, as the counterexample shows;
the code has no sanitization pass.) -/
theorem logs_and_result_key_independent (v1 v2 : PluginVals) (w : World)
    (doc : List Layer) (hp : v1.promptText = v2.promptText)
    (hm : v1.mode = v2.mode) (hk : v1.apiKey = "" ↔ v2.apiKey = "") :
    logsOf (runPluginLogic v1 w doc).events
        = logsOf (runPluginLogic v2 w doc).events
    ∧ (runPluginLogic v1 w doc).result = (runPluginLogic v2 w doc).result
    ∧ surfacedMessage (runPluginLogic v1 w doc)
        = surfacedMessage (runPluginLogic v2 w doc) := by
  obtain ⟨p1, k1, m1⟩ := v1
  obtain ⟨p2, k2, m2⟩ := v2
  dsimp only at hp hm hk ⊢
  subst hp
  subst hm
  by_cases hP : p1 = ""
  · rw [run_shape_prompt_empty ⟨p1, k1, m1⟩ w doc hP,
      run_shape_prompt_empty ⟨p1, k2, m1⟩ w doc hP]
    exact ⟨rfl, rfl, rfl⟩
  · by_cases hK1 : k1 = ""
    · have hK2 : k2 = "" := hk.mp hK1
      rw [run_shape_key_empty ⟨p1, k1, m1⟩ w doc hP hK1,
        run_shape_key_empty ⟨p1, k2, m1⟩ w doc hP hK2]
      exact ⟨rfl, rfl, rfl⟩
    · have hK2 : ¬k2 = "" := fun h => hK1 (hk.mpr h)
      cases hc : w.clientErr with
      | some e =>
        rw [run_shape_clientErr ⟨p1, k1, m1⟩ w doc e hP hK1 hc,
          run_shape_clientErr ⟨p1, k2, m1⟩ w doc e hP hK2 hc]
        exact ⟨rfl, rfl, rfl⟩
      | none =>
        by_cases hM : m1 = MODE_TEXT_TO_IMAGE
        · cases hg : w.genOutcome with
          | error e =>
            rw [run_shape_t2i_err ⟨p1, k1, m1⟩ w doc e hP hK1 hc hM hg,
              run_shape_t2i_err ⟨p1, k2, m1⟩ w doc e hP hK2 hc hM hg]
            exact ⟨rfl, rfl, rfl⟩
          | ok resp =>
            rw [run_shape_t2i_ok ⟨p1, k1, m1⟩ w doc resp hP hK1 hc hM hg,
              run_shape_t2i_ok ⟨p1, k2, m1⟩ w doc resp hP hK2 hc hM hg]
            exact ⟨rfl, rfl, rfl⟩
        · by_cases hM2 : m1 = MODE_IMAGE_TO_IMAGE
          · cases hr : getLayerAsPNG w.drawable with
            | error e =>
              rw [run_shape_i2i_readErr ⟨p1, k1, m1⟩ w doc e hP hK1 hc hM2 hr,
                run_shape_i2i_readErr ⟨p1, k2, m1⟩ w doc e hP hK2 hc hM2 hr]
              exact ⟨rfl, rfl, rfl⟩
            | ok bs =>
              cases hg : w.genOutcome with
              | error e =>
                rw [run_shape_i2i_genErr ⟨p1, k1, m1⟩ w doc bs e hP hK1 hc
                    hM2 hr hg,
                  run_shape_i2i_genErr ⟨p1, k2, m1⟩ w doc bs e hP hK2 hc
                    hM2 hr hg]
                exact ⟨rfl, rfl, rfl⟩
              | ok resp =>
                rw [run_shape_i2i_ok ⟨p1, k1, m1⟩ w doc bs resp hP hK1 hc
                    hM2 hr hg,
                  run_shape_i2i_ok ⟨p1, k2, m1⟩ w doc bs resp hP hK2 hc
                    hM2 hr hg]
                exact ⟨rfl, rfl, rfl⟩
          · rw [run_shape_badMode ⟨p1, k1, m1⟩ w doc hP hK1 hc hM hM2,
              run_shape_badMode ⟨p1, k2, m1⟩ w doc hP hK2 hc hM hM2]
            exact ⟨rfl, rfl, rfl⟩

/-- Witness for the amended C9: two invocations differing only in the apiKey
produce identical logs, result, and surfaced message. -/
theorem logs_and_result_key_independent_witness :
    logsOf (runPluginLogic ⟨"p", "key one", MODE_TEXT_TO_IMAGE⟩ sampleWorld
        []).events
      = logsOf (runPluginLogic ⟨"p", "key two", MODE_TEXT_TO_IMAGE⟩
          sampleWorld []).events
    ∧ (runPluginLogic ⟨"p", "key one", MODE_TEXT_TO_IMAGE⟩ sampleWorld
        []).result
      = (runPluginLogic ⟨"p", "key two", MODE_TEXT_TO_IMAGE⟩ sampleWorld
          []).result
    ∧ surfacedMessage (runPluginLogic ⟨"p", "key one", MODE_TEXT_TO_IMAGE⟩
        sampleWorld [])
      = surfacedMessage (runPluginLogic ⟨"p", "key two", MODE_TEXT_TO_IMAGE⟩
          sampleWorld []) :=
  logs_and_result_key_independent ⟨"p", "key one", MODE_TEXT_TO_IMAGE⟩
    ⟨"p", "key two", MODE_TEXT_TO_IMAGE⟩ sampleWorld [] rfl rfl (by decide)

end GIMini
